import Mathlib

/-!
Shallow embedding of the scrynk-io front-end (TypeScript/React) pages:
the Extract page (src/unnamed/part_001), the Status page
(src/unnamed/part_000) and the Results page
(src/Frontend/src/pages/Results.tsx).

Event handlers are embedded as pure functions from their inputs (form
state and the outcome of the HTTP call, supplied by the environment) to
the ordered list of observable effects they perform: state setters,
HTTP requests, navigations, toasts and DOM mutations, in source order.
-/

/-- `ExtractFormData` from the Extract page: the three controlled form
fields. -/
structure ExtractFormData where
  email : String
  password : String
  postUrl : String
deriving DecidableEq, Repr

/-- The status literal union of `ResultsState` in Results.tsx:
`'success' | 'failure'`. -/
inductive ExtractStatus where
  | success
  | failure
deriving DecidableEq, Repr

/-- `ResultsState` from Results.tsx: the navigation state the Extract
page passes to the Results route. -/
structure ResultsState where
  emails : List String
  postUrl : String
  status : ExtractStatus
deriving DecidableEq, Repr

/-- The JSON body of an extraction response. The code reads only
`result.emails`; `none` models a body in which the `emails` key is
absent (or falsy), which `result.emails || []` turns into `[]`. -/
structure ExtractJson where
  emails : Option (List String)
deriving DecidableEq, Repr

/-- Outcome of `await fetch(...)` on the extract endpoint, supplied by
the environment: the promise rejects (`networkError`), or a response
arrives with `response.ok` and a JSON body (`none` models
`response.json()` throwing on a malformed body). -/
inductive FetchResult where
  | networkError
  | response (ok : Bool) (body : Option ExtractJson)
deriving DecidableEq, Repr

/-- `DownloadFormat`: the `"csv" | "txt"` parameter of `handleDownload`. -/
inductive DownloadFormat where
  | csv
  | txt
deriving DecidableEq, Repr

/-- Outcome of `await fetch(...)` on the download endpoint: rejection,
or a response with `response.ok` (the blob itself is opaque to the
client logic, so it is not carried). -/
inductive BlobFetchResult where
  | networkError
  | response (ok : Bool)
deriving DecidableEq, Repr

/-- One observable effect of an event handler, in source order:
React state setters, HTTP requests, router navigations, toasts,
console output and the DOM anchor manipulation of the download helper.
`clickAnchor` carries the `download` attribute of the anchor being
clicked, i.e. the filename the browser save dialog receives. -/
inductive Effect where
  | setFormData (fd : ExtractFormData)
  | setIsLoading (b : Bool)
  | setEmails (es : List String)
  | fetchExtract (url : String) (fd : ExtractFormData)
  | fetchDownload (url : String)
  | navigateTo (route : String) (st : Option ResultsState)
  | toastError (title : String)
  | consoleError
  | createObjectURL
  | appendAnchor (filename : String)
  | clickAnchor (filename : String)
  | removeAnchor (filename : String)
deriving DecidableEq, Repr

/-- `handleInputChange(field)` of the Extract page: functional update of
one field of `formData` (here specialised per field by three tags). -/
inductive FormField where
  | email
  | password
  | postUrl
deriving DecidableEq, Repr

/-- The state update `setFormData(prev => ({...prev, [field]: value}))`
performed by `handleInputChange`. -/
def handleInputChange (field : FormField) (value : String)
    (prev : ExtractFormData) : ExtractFormData :=
  match field with
  | .email => { prev with email := value }
  | .password => { prev with password := value }
  | .postUrl => { prev with postUrl := value }

/-- The fixed extraction endpoint of the Extract page. -/
def extractUrl : String := "https://scrnk-io.onrender.com/extract/"

/-- `handleSubmit` of the Extract page as an effect trace.
Source order: `setIsLoading(true)`; `fetch` on the extract endpoint;
on rejection or `!response.ok` or a `json()` failure, the catch block
logs and shows one destructive toast; on success it calls
`setEmails(result.emails || [])` and navigates to `/results` with
`{emails: result.emails || [], postUrl: formData.postUrl,
status: 'success'}`; the finally block runs `setIsLoading(false)`. -/
def handleSubmit (fd : ExtractFormData) (fetch : FetchResult) :
    List Effect :=
  [.setIsLoading true, .fetchExtract extractUrl fd] ++
  (match fetch with
   | .networkError => [.consoleError, .toastError "Extraction Failed"]
   | .response ok body =>
     if ok then
       match body with
       | none => [.consoleError, .toastError "Extraction Failed"]
       | some j =>
         let es := j.emails.getD []
         [.setEmails es,
          .navigateTo "/results"
            (some { emails := es, postUrl := fd.postUrl,
                    status := .success })]
     else [.consoleError, .toastError "Extraction Failed"]) ++
  [.setIsLoading false]

/-- `isFormValid` of the Extract page:
`formData.email && formData.password && formData.postUrl`, i.e. the
truthiness of the three fields (a string is truthy iff non-empty). -/
def isFormValid (fd : ExtractFormData) : Bool :=
  !fd.email.isEmpty && !fd.password.isEmpty && !fd.postUrl.isEmpty

/-- The `disabled` prop of the submit button:
`disabled={!isFormValid || isLoading}`. -/
def submitDisabled (fd : ExtractFormData) (isLoading : Bool) : Bool :=
  !isFormValid fd || isLoading

/-- A click on the submit button: a disabled button fires no submit
event, so `handleSubmit` runs only when `submitDisabled` is false. -/
def clickSubmit (fd : ExtractFormData) (isLoading : Bool)
    (fetch : FetchResult) : List Effect :=
  if submitDisabled fd isLoading then [] else handleSubmit fd fetch

/-- The filename expression of the download helper:
`format === "csv" ? "emails.csv" : "emails.txt"`. -/
def downloadFilename (format : DownloadFormat) : String :=
  match format with
  | .csv => "emails.csv"
  | .txt => "emails.txt"

/-- The query string value interpolated into the download URL. -/
def formatParam (format : DownloadFormat) : String :=
  match format with
  | .csv => "csv"
  | .txt => "txt"

/-- `handleDownload` (duplicated verbatim on the Extract page,
src/unnamed/part_001 lines 75-96, and the Status page,
src/unnamed/part_000 lines 11-32) as an effect trace. On a rejected
fetch or `!response.ok` the catch block logs and shows one destructive
toast; on success it creates an object URL, appends an anchor whose
`download` attribute is the fixed filename, clicks it (triggering the
browser save with that filename) and removes it. -/
def handleDownload (format : DownloadFormat) (fetch : BlobFetchResult) :
    List Effect :=
  .fetchDownload
      ("http://127.0.0.1:8000/download/?format=" ++ formatParam format) ::
  (match fetch with
   | .networkError => [.consoleError, .toastError "Download Failed"]
   | .response ok =>
     if ok then
       [.createObjectURL,
        .appendAnchor (downloadFilename format),
        .clickAnchor (downloadFilename format),
        .removeAnchor (downloadFilename format)]
     else [.consoleError, .toastError "Download Failed"])

/-- The navigations in a trace: route and carried state of each
`navigateTo` effect, in order. -/
def navigations (t : List Effect) : List (String × Option ResultsState) :=
  t.filterMap fun e =>
    match e with
    | .navigateTo r st => some (r, st)
    | _ => none

/-- Number of error toasts in a trace. -/
def toastCount (t : List Effect) : Nat :=
  t.countP fun e =>
    match e with
    | .toastError _ => true
    | _ => false

/-- Number of `setFormData` effects in a trace (the only operation that
changes the form fields). -/
def setFormDataCount (t : List Effect) : Nat :=
  t.countP fun e =>
    match e with
    | .setFormData _ => true
    | _ => false

/-- Number of extraction requests issued in a trace. -/
def extractRequestCount (t : List Effect) : Nat :=
  t.countP fun e =>
    match e with
    | .fetchExtract _ _ => true
    | _ => false

/-- The sequence of values passed to `setIsLoading` in a trace. -/
def loadingSets (t : List Effect) : List Bool :=
  t.filterMap fun e =>
    match e with
    | .setIsLoading b => some b
    | _ => none

/-- Filenames of anchors appended to `document.body` in a trace. -/
def appendedAnchors (t : List Effect) : List String :=
  t.filterMap fun e =>
    match e with
    | .appendAnchor f => some f
    | _ => none

/-- Filenames of anchors removed from the DOM in a trace. -/
def removedAnchors (t : List Effect) : List String :=
  t.filterMap fun e =>
    match e with
    | .removeAnchor f => some f
    | _ => none

/-- Filenames handed to the browser save mechanism (the `download`
attribute of each clicked anchor) in a trace. -/
def savedFiles (t : List Effect) : List String :=
  t.filterMap fun e =>
    match e with
    | .clickAnchor f => some f
    | _ => none

/-- The navigation state as it exists at JS runtime in Results.tsx:
`location.state` is merely cast `as ResultsState`, so each field may in
fact be absent (`undefined`). -/
structure RawNavState where
  emails : Option (List String)
  postUrl : Option String
  status : Option ExtractStatus
deriving DecidableEq, Repr

/-- The status badge text of Results.tsx:
`status === 'success' ? 'SUCCESS' : 'FAILED'` (an absent `status`
compares unequal to `'success'`). -/
def statusBadge (st : Option ExtractStatus) : String :=
  match st with
  | some .success => "SUCCESS"
  | _ => "FAILED"

/-- What one rendering of the Results component does:
redirect (`navigate('/extract')` then `return null`), crash with a
TypeError (reading `.length` of an undefined `emails`), or render the
Results content. -/
inductive RenderOutcome where
  | redirectTo (route : String)
  | typeError
  | content (emailCount : Nat) (emails : List String)
      (postUrl : Option String) (badge : String)
deriving DecidableEq, Repr

/-- The Results component body over the runtime (uncast) navigation
state: `if (!state) { navigate('/extract'); return null; }`, then
destructure and render, dereferencing `emails.length` with no further
check. -/
def renderResultsRaw (state : Option RawNavState) : RenderOutcome :=
  match state with
  | none => .redirectTo "/extract"
  | some s =>
    match s.emails with
    | none => .typeError
    | some es => .content es.length es s.postUrl (statusBadge s.status)

/-- Embedding of a typed `ResultsState` into the runtime navigation
state (all fields present). -/
def ResultsState.toRaw (s : ResultsState) : RawNavState :=
  { emails := some s.emails, postUrl := some s.postUrl,
    status := some s.status }

/-- The Results component at the declared type: the navigation state,
when present, is a full `ResultsState` (as the cast in Results.tsx
asserts). -/
def renderResults (state : Option ResultsState) : RenderOutcome :=
  renderResultsRaw (state.map ResultsState.toRaw)

/-- Every `navigate` call in the repository other than the one in
`handleSubmit`, with the state it carries: the back/home and shortcut
buttons of the Extract page, the Status page (src/unnamed/part_000),
the Results page and the Landing page all call `navigate(route)` with
no state argument. -/
def staticNavigations : List (String × Option ResultsState) :=
  [("/", none),            -- Extract: Back to Home
   ("/", none),            -- Status: Back to Home (header)
   ("/extract", none),     -- Status: Start New Extraction
   ("/", none),            -- Status: Back to Home (footer)
   ("/extract", none),     -- Results: guard redirect
   ("/extract", none),     -- Results: Back to Extract
   ("/extract", none),     -- Results: Try Again
   ("/status", none),      -- Results: View Status
   ("/extract", none)]     -- Landing: Start Extracting

/-- Discriminator: is a render outcome the redirect branch? -/
def RenderOutcome.isRedirect : RenderOutcome → Bool
  | .redirectTo _ => true
  | _ => false

/-- C1: when the extraction endpoint responds HTTP 200 with a JSON body
carrying an `emails` array, `handleSubmit` performs exactly one
navigation, to `/results`, whose state has status `success`, the
response's emails list unchanged, and the submitted `postUrl`. -/
theorem c1_success_navigation (fd : ExtractFormData) (es : List String) :
    navigations (handleSubmit fd (.response true (some ⟨some es⟩))) =
      [("/results",
        some { emails := es, postUrl := fd.postUrl,
               status := ExtractStatus.success })] := by
  rfl

/-- C2: rendering the Results view with no navigation state redirects to
the Extract route and renders nothing; Results content is rendered only
when a `ResultsState` is carried in the navigation state. -/
theorem c2_results_guard :
    renderResults none = RenderOutcome.redirectTo "/extract" ∧
    ∀ (st : Option ResultsState) (n : Nat) (es : List String)
      (p : Option String) (b : String),
      renderResults st = RenderOutcome.content n es p b →
      st.isSome = true := by
  refine ⟨rfl, ?_⟩
  intro st n es p b h
  cases st with
  | none => exact RenderOutcome.noConfusion h
  | some s => rfl

/-- C2 witness: a concrete rendered state is indeed present. -/
theorem c2_results_guard_witness :
    (some { emails := ["a"], postUrl := "u",
            status := ExtractStatus.success } :
        Option ResultsState).isSome = true :=
  c2_results_guard.2 _ 1 ["a"] (some "u") "SUCCESS" (by decide)

/-- C3: on a non-ok extraction response, `handleSubmit` performs no
navigation, shows exactly one error toast and never touches the form
field state. -/
theorem c3_http_error_no_navigation (fd : ExtractFormData)
    (body : Option ExtractJson) :
    navigations (handleSubmit fd (.response false body)) = [] ∧
    toastCount (handleSubmit fd (.response false body)) = 1 ∧
    setFormDataCount (handleSubmit fd (.response false body)) = 0 := by
  exact ⟨rfl, rfl, rfl⟩

/-- C4: every navigation state carried to the Results route by
`handleSubmit` has status `success`, and every other `navigate` call in
the repository carries no state at all, so no reachable code path
constructs a `failure` status. -/
theorem c4_no_failure_status :
    (∀ (fd : ExtractFormData) (fetch : FetchResult) (r : String)
       (st : ResultsState),
       (r, some st) ∈ navigations (handleSubmit fd fetch) →
       st.status = ExtractStatus.success) ∧
    ∀ p ∈ staticNavigations, p.2 = (none : Option ResultsState) := by
  constructor
  · intro fd fetch r st h
    cases fetch with
    | networkError => exact absurd h (List.not_mem_nil _)
    | response ok body =>
      cases ok with
      | false => exact absurd h (List.not_mem_nil _)
      | true =>
        cases body with
        | none => exact absurd h (List.not_mem_nil _)
        | some j =>
          have h' : (r, some st) ∈
              [("/results",
                some { emails := j.emails.getD [], postUrl := fd.postUrl,
                       status := ExtractStatus.success })] := h
          have h2 := List.mem_singleton.mp h'
          have h3 : some st =
              some { emails := j.emails.getD [], postUrl := fd.postUrl,
                     status := ExtractStatus.success } :=
            congrArg Prod.snd h2
          injection h3 with h4
          rw [h4]
  · decide

/-- C4 witness: the navigation produced by a concrete successful
submission has status `success`. -/
theorem c4_no_failure_status_witness :
    ({ emails := ["e@x.com"], postUrl := "u",
       status := ExtractStatus.success } : ResultsState).status =
      ExtractStatus.success :=
  c4_no_failure_status.1 { email := "a", password := "b", postUrl := "u" }
    (.response true (some ⟨some ["e@x.com"]⟩)) "/results" _ (by decide)

/-- C5: the submit control is enabled (not disabled) iff all three form
fields are non-empty and no request is loading. -/
theorem c5_submit_enabled_iff (fd : ExtractFormData) (isLoading : Bool) :
    submitDisabled fd isLoading = false ↔
      fd.email ≠ "" ∧ fd.password ≠ "" ∧ fd.postUrl ≠ "" ∧
      isLoading = false := by
  have hs : ∀ s : String, (s.isEmpty = false) ↔ ¬ s = "" := fun s => by
    rw [Bool.eq_false_iff]
    exact not_congr (String.isEmpty_iff s)
  simp [submitDisabled, isFormValid, and_assoc, hs]

/-- C6: `handleSubmit` sets the loading flag before issuing its request,
the submit control is disabled whenever the loading flag is set, and a
click on the submit control while loading runs nothing — in particular
it issues no second extraction request. -/
theorem c6_no_concurrent_requests (fd : ExtractFormData)
    (fetch : FetchResult) :
    (handleSubmit fd fetch).take 2 =
      [.setIsLoading true, .fetchExtract extractUrl fd] ∧
    submitDisabled fd true = true ∧
    clickSubmit fd true fetch = [] ∧
    extractRequestCount (clickSubmit fd true fetch) = 0 := by
  refine ⟨rfl, ?_, ?_, ?_⟩
  · simp [submitDisabled]
  · simp [clickSubmit, submitDisabled]
  · simp [clickSubmit, submitDisabled, extractRequestCount]

/-- C7: a 2xx response whose JSON body lacks the `emails` key navigates
to Results with the empty email list. -/
theorem c7_missing_emails_key (fd : ExtractFormData) :
    navigations (handleSubmit fd (.response true (some ⟨none⟩))) =
      [("/results",
        some { emails := [], postUrl := fd.postUrl,
               status := ExtractStatus.success })] := by
  rfl

/-- C8: on an ok download response the helper triggers exactly one
browser save, named `emails.csv` for format `csv` and `emails.txt` for
format `txt`, and every anchor it appends to the DOM it also removes. -/
theorem c8_download_filenames (format : DownloadFormat) :
    savedFiles (handleDownload format (.response true)) =
      [downloadFilename format] ∧
    downloadFilename .csv = "emails.csv" ∧
    downloadFilename .txt = "emails.txt" ∧
    appendedAnchors (handleDownload format (.response true)) =
      removedAnchors (handleDownload format (.response true)) := by
  cases format <;> exact ⟨rfl, rfl, rfl, rfl⟩

/-- C9: the Results guard tests only whether the navigation state object
is absent: any non-null state — even one missing every field — passes
the guard (never redirects), a state with `emails` present renders
content, and one with `emails` absent crashes dereferencing
`state.emails.length`. -/
theorem c9_guard_only_checks_nullness :
    (∀ s : RawNavState,
       (renderResultsRaw (some s)).isRedirect = false) ∧
    (∀ (es : List String) (p : Option String) (st : Option ExtractStatus),
       renderResultsRaw (some ⟨some es, p, st⟩) =
         RenderOutcome.content es.length es p (statusBadge st)) ∧
    ∀ (p : Option String) (st : Option ExtractStatus),
      renderResultsRaw (some ⟨none, p, st⟩) = RenderOutcome.typeError := by
  refine ⟨?_, fun es p st => rfl, fun p st => rfl⟩
  intro s
  cases h : s.emails with
  | none =>
    cases s
    simp_all [renderResultsRaw, RenderOutcome.isRedirect]
  | some es =>
    cases s
    simp_all [renderResultsRaw, RenderOutcome.isRedirect]

/-- C10: for every completion of `handleSubmit` — success, non-2xx
response, network rejection or JSON-parse failure — the loading flag is
set exactly to `true` then `false`, and the final effect is the finally
block's `setIsLoading(false)`. -/
theorem c10_loading_always_reset (fd : ExtractFormData)
    (fetch : FetchResult) :
    loadingSets (handleSubmit fd fetch) = [true, false] ∧
    (handleSubmit fd fetch).getLast? = some (.setIsLoading false) := by
  rcases fetch with _ | ⟨ok, body⟩
  · exact ⟨rfl, rfl⟩
  · cases ok
    · exact ⟨rfl, rfl⟩
    · rcases body with _ | j
      · exact ⟨rfl, rfl⟩
      · exact ⟨rfl, rfl⟩
